import Mathlib

/-!
Shallow embedding of the ALICA sawtooth message validation engine
(src/messages/json.rs and src/messages/mod.rs).

The raw byte buffer handed to a validator is abstracted by `MsgInput`:
the JSON library distinguishes exactly three cases of a buffer —
not valid UTF-8, valid UTF-8 but not well-formed JSON text, and
well-formed JSON text denoting a value.  A buffer produced by
serializing a JSON value (`dump` in the source) is valid UTF-8 and
parses back to that value, so a nested call `validator.validate(v.dump().as_bytes())`
is embedded as `validator (MsgInput.parsed v)`.
-/

namespace AlicaSawtooth

/-- Decimal number as stored by the JSON library: the denoted value is
mantissa * 10 ^ exponent. -/
structure JNumber where
  mantissa : Int
  exponent : Int
deriving DecidableEq, Repr

def i64Min : Int := -(2 ^ 63)

def i64Max : Int := 2 ^ 63 - 1

/-- Models the JSON library conversion of a decimal number to a signed
64-bit integer (`as_i64`): it succeeds exactly when the denoted value is an
integer in the signed 64-bit range; a number with a fractional part is
never truncated. -/
def JNumber.asI64 (n : JNumber) : Option Int :=
  if 0 ≤ n.exponent then
    let v := n.mantissa * 10 ^ n.exponent.toNat
    if i64Min ≤ v ∧ v ≤ i64Max then some v else none
  else
    let d := (10 : Int) ^ (-n.exponent).toNat
    if d ∣ n.mantissa then
      let v := n.mantissa / d
      if i64Min ≤ v ∧ v ≤ i64Max then some v else none
    else none

/-- Structured document produced by the JSON parser: object, array or
scalar (string, number, boolean, null). -/
inductive JsonValue where
  | null
  | str (s : String)
  | num (n : JNumber)
  | boolean (b : Bool)
  | object (entries : List (String × JsonValue))
  | array (items : List JsonValue)

/-- A parsed JSON object: a finite mapping from field names to values,
as a list of entries. -/
def Object := List (String × JsonValue)

/-- Field lookup on a parsed object (`Object::get` of the JSON library). -/
def Object.get : Object → String → Option JsonValue
  | [], _ => none
  | (k, v) :: rest, f => if k = f then some v else Object.get rest f

/-- String view of a JSON value (`as_str`). -/
def JsonValue.as_str : JsonValue → Option String
  | .str s => some s
  | _ => none

/-- Signed 64-bit integer view of a JSON value (`as_i64`). -/
def JsonValue.as_i64 : JsonValue → Option Int
  | .num n => n.asI64
  | _ => none

/-- Boolean view of a JSON value (`as_bool`). -/
def JsonValue.as_bool : JsonValue → Option Bool
  | .boolean b => some b
  | _ => none

/-- Validation failure (src/messages/mod.rs, `AlicaMessageValidationError`). -/
inductive AlicaMessageValidationError where
  | invalidFormat (message : String)
  | missingField (field : String)
deriving DecidableEq, Repr

/-- The result of a validation call (`AlicaMessageValidationResult`). -/
abbrev AlicaMessageValidationResult := Except AlicaMessageValidationError Unit

/-- The collaborator-visible string of a failure
(src/messages/mod.rs, `impl Into<String> for AlicaMessageValidationError`). -/
def AlicaMessageValidationError.intoString : AlicaMessageValidationError → String
  | .invalidFormat message => message
  | .missingField field => "Required field missing: " ++ field

/-- Abstraction of the raw byte buffer given to a validator: the three
cases the parser front end distinguishes. -/
inductive MsgInput where
  | badUtf8
  | badJson
  | parsed (v : JsonValue)

/-- `helper::parse_object` (src/messages/json.rs lines 69-81): decode the
buffer as UTF-8, parse it as JSON, and require the root to be an object. -/
def parse_object : MsgInput → Except AlicaMessageValidationError Object
  | .badUtf8 => .error (.invalidFormat "Message is no UTF-8 string")
  | .badJson => .error (.invalidFormat "Message is no JSON structure")
  | .parsed (.object o) => .ok o
  | .parsed _ => .error (.invalidFormat "Root of message is no object")

/-- `Option::ok_or_else` specialised to validation errors. -/
def okOr {α : Type} (o : Option α) (e : AlicaMessageValidationError) :
    Except AlicaMessageValidationError α :=
  match o with
  | some a => .ok a
  | none => .error e

/-- `validation::validate_string_field` (json.rs lines 8-12). -/
def validate_string_field (container : Object) (field : String) :
    AlicaMessageValidationResult := do
  let value ← okOr (container.get field) (.missingField field)
  let _ ← okOr value.as_str (.invalidFormat (field ++ " is no string"))
  .ok ()

/-- `validation::validate_integer_field` (json.rs lines 14-18). -/
def validate_integer_field (container : Object) (field : String) :
    AlicaMessageValidationResult := do
  let value ← okOr (container.get field) (.missingField field)
  let _ ← okOr value.as_i64 (.invalidFormat (field ++ " is no integer"))
  .ok ()

/-- `validation::validate_boolean_field` (json.rs lines 20-24).  The
failure message in the source reads "is no integer". -/
def validate_boolean_field (container : Object) (field : String) :
    AlicaMessageValidationResult := do
  let value ← okOr (container.get field) (.missingField field)
  let _ ← okOr value.as_bool (.invalidFormat (field ++ " is no integer"))
  .ok ()

/-- `CapnZeroIdValidator::validate` (json.rs lines 277-286). -/
def CapnZeroIdValidator.validate (message : MsgInput) :
    AlicaMessageValidationResult := do
  let capnzero_id_root ← parse_object message
  let _ ← validate_integer_field capnzero_id_root "type"
  let _ ← validate_string_field capnzero_id_root "value"
  .ok ()

/-- `validation::validate_capnzero_id_field` (json.rs lines 26-31): locate
the sub-document and run it through the identifier validator. -/
def validate_capnzero_id_field (container : Object) (field : String) :
    AlicaMessageValidationResult :=
  match container.get field with
  | some id => CapnZeroIdValidator.validate (.parsed id)
  | none => .error (.missingField field)

/-- `collect::<Result<(), E>>` over an iterator: left-to-right, stopping
at the first error. -/
def collectResults : List AlicaMessageValidationResult →
    AlicaMessageValidationResult
  | [] => .ok ()
  | r :: rs => do
    let _ ← r
    collectResults rs

/-- `validation::validate_integer_list_field` (json.rs lines 33-48). -/
def validate_integer_list_field (container : Object) (field : String) :
    AlicaMessageValidationResult :=
  match container.get field with
  | some fieldJson =>
    match fieldJson with
    | .array arrayJson =>
      collectResults (arrayJson.map (fun arrayEntry =>
        match arrayEntry.as_i64 with
        | some _ => .ok ()
        | none => .error (.invalidFormat (field ++ " contains a non integer entry"))))
    | _ => .error (.invalidFormat (field ++ " is no array"))
  | none => .error (.missingField field)

/-- `validation::validate_list_field_with_complex_components`
(json.rs lines 50-63): every element, re-serialized, is handed to the
injected validator. -/
def validate_list_field_with_complex_components (container : Object)
    (field : String) (validator : MsgInput → AlicaMessageValidationResult) :
    AlicaMessageValidationResult :=
  match container.get field with
  | some fieldJson =>
    match fieldJson with
    | .array arrayJson =>
      collectResults (arrayJson.map (fun arrayEntry =>
        validator (.parsed arrayEntry)))
    | _ => .error (.invalidFormat (field ++ " is no array"))
  | none => .error (.missingField field)

/-- `EntryPointRobotValidator::validate` (json.rs lines 138-145). -/
def EntryPointRobotValidator.validate (message : MsgInput) :
    AlicaMessageValidationResult := do
  let entry_point_robot ← parse_object message
  let _ ← validate_integer_field entry_point_robot "entrypoint"
  let _ ← validate_list_field_with_complex_components entry_point_robot
    "robots" CapnZeroIdValidator.validate
  .ok ()

/-- `SolverVarValidator::validate` (json.rs lines 207-214). -/
def SolverVarValidator.validate (message : MsgInput) :
    AlicaMessageValidationResult := do
  let solver_var ← parse_object message
  let _ ← validate_integer_field solver_var "id"
  let _ ← validate_integer_list_field solver_var "value"
  .ok ()

/-- `SyncDataValidator::validate` (json.rs lines 258-267). -/
def SyncDataValidator.validate (message : MsgInput) :
    AlicaMessageValidationResult := do
  let sync_data ← parse_object message
  let _ ← validate_capnzero_id_field sync_data "robotId"
  let _ ← validate_integer_field sync_data "transitionId"
  let _ ← validate_boolean_field sync_data "transitionHolds"
  let _ ← validate_boolean_field sync_data "ack"
  .ok ()

/-- `AlicaEngineInfoValidator::validate` (json.rs lines 91-105). -/
def AlicaEngineInfoValidator.validate (message : MsgInput) :
    AlicaMessageValidationResult := do
  let engine_info_root ← parse_object message
  let _ ← validate_capnzero_id_field engine_info_root "senderId"
  let _ ← validate_string_field engine_info_root "masterPlan"
  let _ ← validate_string_field engine_info_root "currentPlan"
  let _ ← validate_string_field engine_info_root "currentState"
  let _ ← validate_string_field engine_info_root "currentRole"
  let _ ← validate_string_field engine_info_root "currentTask"
  let _ ← validate_list_field_with_complex_components engine_info_root
    "agentIdsWithMe" CapnZeroIdValidator.validate
  .ok ()

/-- `AllocationAuthorityInfoValidator::validate` (json.rs lines 115-128). -/
def AllocationAuthorityInfoValidator.validate (message : MsgInput) :
    AlicaMessageValidationResult := do
  let allocation_authority_info_root ← parse_object message
  let _ ← validate_capnzero_id_field allocation_authority_info_root "senderId"
  let _ ← validate_integer_field allocation_authority_info_root "planId"
  let _ ← validate_integer_field allocation_authority_info_root "parentState"
  let _ ← validate_integer_field allocation_authority_info_root "planType"
  let _ ← validate_capnzero_id_field allocation_authority_info_root "authority"
  let _ ← validate_list_field_with_complex_components allocation_authority_info_root
    "entrypointRobots" EntryPointRobotValidator.validate
  .ok ()

/-- `PlanTreeInfoValidator::validate` (json.rs lines 155-163). -/
def PlanTreeInfoValidator.validate (message : MsgInput) :
    AlicaMessageValidationResult := do
  let plan_tree_info ← parse_object message
  let _ ← validate_capnzero_id_field plan_tree_info "senderId"
  let _ ← validate_integer_list_field plan_tree_info "stateIds"
  let _ ← validate_integer_list_field plan_tree_info "succeededEps"
  .ok ()

/-- `RoleSwitchValidator::validate` (json.rs lines 173-180). -/
def RoleSwitchValidator.validate (message : MsgInput) :
    AlicaMessageValidationResult := do
  let role_switch ← parse_object message
  let _ ← validate_capnzero_id_field role_switch "senderId"
  let _ ← validate_integer_field role_switch "roleId"
  .ok ()

/-- `SolverResultValidator::validate` (json.rs lines 190-197). -/
def SolverResultValidator.validate (message : MsgInput) :
    AlicaMessageValidationResult := do
  let solver_result ← parse_object message
  let _ ← validate_capnzero_id_field solver_result "senderId"
  let _ ← validate_list_field_with_complex_components solver_result
    "vars" SolverVarValidator.validate
  .ok ()

/-- `SyncReadyValidator::validate` (json.rs lines 224-231). -/
def SyncReadyValidator.validate (message : MsgInput) :
    AlicaMessageValidationResult := do
  let sync_ready ← parse_object message
  let _ ← validate_capnzero_id_field sync_ready "senderId"
  let _ ← validate_integer_field sync_ready "synchronisationId"
  .ok ()

/-- `SyncTalkValidator::validate` (json.rs lines 241-248). -/
def SyncTalkValidator.validate (message : MsgInput) :
    AlicaMessageValidationResult := do
  let sync_talk ← parse_object message
  let _ ← validate_capnzero_id_field sync_talk "senderId"
  let _ ← validate_list_field_with_complex_components sync_talk
    "syncData" SyncDataValidator.validate
  .ok ()

/-- The kind of check a schema applies to one field: one of the primitive
field checkers, the identifier (reference) checker, or a collection
checker (with its injected element validator). -/
inductive FieldCheck where
  | strF
  | intF
  | boolF
  | capnzeroId
  | intList
  | complexList (validator : MsgInput → AlicaMessageValidationResult)

/-- Run one field check on a parsed object: dispatches to the checker
functions of the source. -/
def FieldCheck.run : FieldCheck → Object → String → AlicaMessageValidationResult
  | .strF, o, f => validate_string_field o f
  | .intF, o, f => validate_integer_field o f
  | .boolF, o, f => validate_boolean_field o f
  | .capnzeroId, o, f => validate_capnzero_id_field o f
  | .intList, o, f => validate_integer_list_field o f
  | .complexList v, o, f => validate_list_field_with_complex_components o f v

/-- A schema: the fixed, ordered list of (check, field name) pairs of one
message kind. -/
abbrev Schema := List (FieldCheck × String)

/-- Run the checks of a schema in order on a parsed object, stopping at
the first failure (the `?`-chaining of the source validators). -/
def runChecks : Schema → Object → AlicaMessageValidationResult
  | [], _ => .ok ()
  | c :: cs, o => do
    let _ ← c.1.run o c.2
    runChecks cs o

def engineInfoSchema : Schema :=
  [(.capnzeroId, "senderId"), (.strF, "masterPlan"), (.strF, "currentPlan"),
   (.strF, "currentState"), (.strF, "currentRole"), (.strF, "currentTask"),
   (.complexList CapnZeroIdValidator.validate, "agentIdsWithMe")]

def allocationAuthoritySchema : Schema :=
  [(.capnzeroId, "senderId"), (.intF, "planId"), (.intF, "parentState"),
   (.intF, "planType"), (.capnzeroId, "authority"),
   (.complexList EntryPointRobotValidator.validate, "entrypointRobots")]

def entryPointRobotSchema : Schema :=
  [(.intF, "entrypoint"), (.complexList CapnZeroIdValidator.validate, "robots")]

def planTreeInfoSchema : Schema :=
  [(.capnzeroId, "senderId"), (.intList, "stateIds"), (.intList, "succeededEps")]

def roleSwitchSchema : Schema :=
  [(.capnzeroId, "senderId"), (.intF, "roleId")]

def solverResultSchema : Schema :=
  [(.capnzeroId, "senderId"), (.complexList SolverVarValidator.validate, "vars")]

def solverVarSchema : Schema :=
  [(.intF, "id"), (.intList, "value")]

def syncReadySchema : Schema :=
  [(.capnzeroId, "senderId"), (.intF, "synchronisationId")]

def syncTalkSchema : Schema :=
  [(.capnzeroId, "senderId"), (.complexList SyncDataValidator.validate, "syncData")]

def syncDataSchema : Schema :=
  [(.capnzeroId, "robotId"), (.intF, "transitionId"), (.boolF, "transitionHolds"),
   (.boolF, "ack")]

def capnZeroIdSchema : Schema :=
  [(.intF, "type"), (.strF, "value")]

/-- The eleven message validators of the source, each paired with the
schema it implements. -/
def schemaTable : List ((MsgInput → AlicaMessageValidationResult) × Schema) :=
  [(AlicaEngineInfoValidator.validate, engineInfoSchema),
   (AllocationAuthorityInfoValidator.validate, allocationAuthoritySchema),
   (EntryPointRobotValidator.validate, entryPointRobotSchema),
   (PlanTreeInfoValidator.validate, planTreeInfoSchema),
   (RoleSwitchValidator.validate, roleSwitchSchema),
   (SolverResultValidator.validate, solverResultSchema),
   (SolverVarValidator.validate, solverVarSchema),
   (SyncReadyValidator.validate, syncReadySchema),
   (SyncTalkValidator.validate, syncTalkSchema),
   (SyncDataValidator.validate, syncDataSchema),
   (CapnZeroIdValidator.validate, capnZeroIdSchema)]

/-- Every validator of the table is the composition of `parse_object`
with the sequential run of its schema's checks. -/
theorem schemaTable_sound :
    ∀ p ∈ schemaTable, ∀ m : MsgInput,
      p.1 m = Except.bind (parse_object m) (runChecks p.2) := by
  intro p hp m
  simp only [schemaTable, List.mem_cons, List.not_mem_nil, or_false] at hp
  rcases hp with rfl | rfl | rfl | rfl | rfl | rfl | rfl | rfl | rfl | rfl | rfl <;> rfl

/-- If every check before position `i` succeeds and the check at `i` fails
with `e`, the sequential run of the schema returns exactly `e`. -/
theorem runChecks_first_error :
    ∀ (cs : Schema) (o : Object) (i : Nat) (c : FieldCheck × String)
      (e : AlicaMessageValidationError),
      cs[i]? = some c →
      (∀ j cj, j < i → cs[j]? = some cj → cj.1.run o cj.2 = .ok ()) →
      c.1.run o c.2 = .error e →
      runChecks cs o = .error e := by
  intro cs
  induction cs with
  | nil =>
    intro o i c e hc _ _
    simp at hc
  | cons hd tl ih =>
    intro o i c e hc hok herr
    cases i with
    | zero =>
      simp only [List.getElem?_cons_zero, Option.some.injEq] at hc
      subst hc
      simp only [runChecks, herr]
      rfl
    | succ k =>
      have h0 : hd.1.run o hd.2 = .ok () := hok 0 hd (Nat.succ_pos k) (by simp)
      have htl : runChecks tl o = .error e := by
        refine ih o k c e (by simpa using hc) ?_ herr
        intro j cj hj hcj
        exact hok (j + 1) cj (Nat.succ_lt_succ hj) (by simpa using hcj)
      simp only [runChecks, h0, htl]
      rfl

/-- A field check reads nothing of the object beyond its own field. -/
theorem FieldCheck.run_get_congr (c : FieldCheck) (f : String) (o o2 : Object)
    (h : o2.get f = o.get f) : c.run o2 f = c.run o f := by
  cases c <;>
    simp only [run, validate_string_field, validate_integer_field,
      validate_boolean_field, validate_capnzero_id_field,
      validate_integer_list_field, validate_list_field_with_complex_components, h]

/-- Two objects that agree on all field names of a schema are treated
identically by the run of that schema. -/
theorem runChecks_get_congr (l : Schema) (o o2 : Object)
    (h : ∀ f ∈ l.map Prod.snd, o2.get f = o.get f) :
    runChecks l o2 = runChecks l o := by
  induction l with
  | nil => rfl
  | cons hd tl ih =>
    have h1 : o2.get hd.2 = o.get hd.2 := h hd.2 (by simp)
    have h2 : ∀ f ∈ tl.map Prod.snd, o2.get f = o.get f := by
      intro f hf
      exact h f (by simp [hf])
    simp only [runChecks, FieldCheck.run_get_congr hd.1 hd.2 o o2 h1, ih h2]

/-- Collecting mapped results is fail-fast: if every element before
position `i` maps to success and the element at `i` maps to failure `e`,
the collected result is exactly `e`. -/
theorem collectResults_map_first_error {α : Type}
    (g : α → AlicaMessageValidationResult) :
    ∀ (xs : List α) (i : Nat) (x : α) (e : AlicaMessageValidationError),
      xs[i]? = some x →
      (∀ j y, j < i → xs[j]? = some y → g y = .ok ()) →
      g x = .error e →
      collectResults (xs.map g) = .error e := by
  intro xs
  induction xs with
  | nil =>
    intro i x e hx _ _
    simp at hx
  | cons hd tl ih =>
    intro i x e hx hok herr
    cases i with
    | zero =>
      simp only [List.getElem?_cons_zero, Option.some.injEq] at hx
      subst hx
      simp only [List.map_cons, collectResults, herr]
      rfl
    | succ k =>
      have h0 : g hd = .ok () := hok 0 hd (Nat.succ_pos k) (by simp)
      have htl : collectResults (tl.map g) = .error e := by
        refine ih k x e (by simpa using hx) ?_ herr
        intro j y hj hy
        exact hok (j + 1) y (Nat.succ_lt_succ hj) (by simpa using hy)
      simp only [List.map_cons, collectResults, h0, htl]
      rfl

/-- Sequencing after a success continues with the rest. -/
theorem bind_ok_eq {α β : Type} (a : α)
    (k : α → Except AlicaMessageValidationError β) :
    (Except.ok a >>= k : Except AlicaMessageValidationError β) = k a :=
  rfl

/-- Sequencing after a failure returns that failure. -/
theorem bind_error_eq {α β : Type} (e : AlicaMessageValidationError)
    (k : α → Except AlicaMessageValidationError β) :
    (Except.error e >>= k : Except AlicaMessageValidationError β) = .error e :=
  rfl

/-- The identifier document of claim C1: an integer field named "kind"
and a string field named "value". -/
def kindValueDoc : JsonValue :=
  .object [("kind", .num ⟨1, 0⟩), ("value", .str "a")]

/-- The entry-point/robot document of claim C1, with "kind" fields in the
robots elements. -/
def c1ClaimEntryPointDoc : JsonValue :=
  .object [("entrypoint", .num ⟨0, 0⟩),
           ("robots", .array
             [.object [("kind", .num ⟨1, 0⟩), ("value", .str "a")],
              .object [("kind", .num ⟨1, 0⟩), ("value", .str "b")]])]

/-- The entry-point/robot document of claim C1 with the identifier field
renamed to "type", the name the code actually requires. -/
def c1TypeEntryPointDoc : JsonValue :=
  .object [("entrypoint", .num ⟨0, 0⟩),
           ("robots", .array
             [.object [("type", .num ⟨1, 0⟩), ("value", .str "a")],
              .object [("type", .num ⟨1, 0⟩), ("value", .str "b")]])]

/-- C1, counterexample: the Reference Checker rejects an object whose
integer field is named "kind" — it requires the name "type" — so the
document with an integer "kind" and a string "value" is invalid, and the
claimed entry-point/robot scenario document fails with
Missing Field("type") instead of validating. -/
theorem capnzero_kind_claim_counterexample :
    CapnZeroIdValidator.validate (.parsed kindValueDoc) =
      .error (.missingField "type") ∧
    EntryPointRobotValidator.validate (.parsed c1ClaimEntryPointDoc) =
      .error (.missingField "type") :=
  ⟨rfl, rfl⟩

/-- C1 (amended): the Reference Checker requires exactly two fields, an
integer field named "type" (not "kind") and a string field named "value":
every input that parses to an object containing an integer "type" and a
string "value" is valid, and an entry-point/robot document with
entrypoint 0 and robots [{type:1,value:"a"},{type:1,value:"b"}] validates
successfully. -/
theorem capnzero_requires_type_and_value :
    (∀ (m : MsgInput) (o : Object), parse_object m = .ok o →
      (∃ v, o.get "type" = some v ∧ (JsonValue.as_i64 v).isSome) →
      (∃ v, o.get "value" = some v ∧ (JsonValue.as_str v).isSome) →
      CapnZeroIdValidator.validate m = .ok ()) ∧
    EntryPointRobotValidator.validate (.parsed c1TypeEntryPointDoc) = .ok () := by
  constructor
  · intro m o hp h1 h2
    obtain ⟨v1, hv1, hi1⟩ := h1
    obtain ⟨v2, hv2, hs2⟩ := h2
    obtain ⟨n1, hn1⟩ := Option.isSome_iff_exists.mp hi1
    obtain ⟨s2, hs⟩ := Option.isSome_iff_exists.mp hs2
    simp [CapnZeroIdValidator.validate, hp, validate_integer_field,
      validate_string_field, hv1, hv2, hn1, hs, okOr, bind_ok_eq]
  · rfl

/-- C1, witness: a concrete identifier document with an integer "type"
and a string "value" validates. -/
theorem capnzero_requires_type_and_value_witness :
    CapnZeroIdValidator.validate
      (.parsed (.object [("type", .num ⟨1, 0⟩), ("value", .str "a")])) = .ok () :=
  capnzero_requires_type_and_value.1
    (.parsed (.object [("type", .num ⟨1, 0⟩), ("value", .str "a")]))
    [("type", .num ⟨1, 0⟩), ("value", .str "a")] rfl
    ⟨.num ⟨1, 0⟩, rfl, rfl⟩ ⟨.str "a", rfl, rfl⟩

/-- The synchronization-data-record document of claim C2, whose robotId
sub-document uses the field name "kind". -/
def c2ClaimSyncDataDoc : JsonValue :=
  .object [("robotId", .object [("kind", .num ⟨0, 0⟩), ("value", .str "r1")]),
           ("transitionId", .num ⟨1, 0⟩),
           ("transitionHolds", .boolean true),
           ("ack", .boolean true)]

/-- The synchronization-data-record document of claim C2 with the robotId
sub-document using the field name "type" required by the code. -/
def c2SyncDataDoc : JsonValue :=
  .object [("robotId", .object [("type", .num ⟨0, 0⟩), ("value", .str "r1")]),
           ("transitionId", .num ⟨1, 0⟩),
           ("transitionHolds", .boolean true),
           ("ack", .boolean true)]

/-- The C2 document without its "ack" field. -/
def c2SyncDataDocNoAck : JsonValue :=
  .object [("robotId", .object [("type", .num ⟨0, 0⟩), ("value", .str "r1")]),
           ("transitionId", .num ⟨1, 0⟩),
           ("transitionHolds", .boolean true)]

/-- The C2 document with "transitionId" replaced by a string. -/
def c2SyncDataDocStringTransition : JsonValue :=
  .object [("robotId", .object [("type", .num ⟨0, 0⟩), ("value", .str "r1")]),
           ("transitionId", .str "1"),
           ("transitionHolds", .boolean true),
           ("ack", .boolean true)]

/-- C2, counterexample: the synchronization-data-record document of the
claim, with robotId {kind:0, value:"r1"}, does not validate successfully:
the identifier validator requires the field name "type" and reports
Missing Field("type"). -/
theorem sync_data_kind_claim_counterexample :
    SyncDataValidator.validate (.parsed c2ClaimSyncDataDoc) =
      .error (.missingField "type") :=
  rfl

/-- C2 (amended): with the robotId sub-document written {type:0,
value:"r1"}, the synchronization-data-record document validates
successfully; removing "ack" yields Missing Field("ack"); replacing
"transitionId" by a string yields Invalid Format naming transitionId. -/
theorem sync_data_scenario :
    SyncDataValidator.validate (.parsed c2SyncDataDoc) = .ok () ∧
    SyncDataValidator.validate (.parsed c2SyncDataDocNoAck) =
      .error (.missingField "ack") ∧
    SyncDataValidator.validate (.parsed c2SyncDataDocStringTransition) =
      .error (.invalidFormat "transitionId is no integer") :=
  ⟨rfl, rfl, rfl⟩

/-- C7: the collaborator-visible string of an Invalid Format failure is
its description verbatim, and of a Missing Field failure is
"Required field missing: " followed by the field name. -/
theorem failure_into_string :
    (∀ d : String, AlicaMessageValidationError.intoString (.invalidFormat d) = d) ∧
    (∀ n : String, AlicaMessageValidationError.intoString (.missingField n) =
      "Required field missing: " ++ n) :=
  ⟨fun _ => rfl, fun _ => rfl⟩

/-- C8, code-bug evidence: the boolean field checker, applied to a
container whose "ack" field is the string "yes", fails with Invalid
Format, but the description reads "ack is no integer" — it names the
integer type instead of the expected boolean type (json.rs line 22
reuses the integer checker's message). -/
theorem boolean_checker_message_names_integer :
    validate_boolean_field [("ack", .str "yes")] "ack" =
      .error (.invalidFormat "ack is no integer") :=
  rfl

/-- The engine-status validator and its schema are in the table. -/
theorem engineInfo_mem_schemaTable :
    (AlicaEngineInfoValidator.validate, engineInfoSchema) ∈ schemaTable :=
  List.mem_cons_self _ _

/-- The role-switch validator and its schema are in the table. -/
theorem roleSwitch_mem_schemaTable :
    (RoleSwitchValidator.validate, roleSwitchSchema) ∈ schemaTable := by
  simp [schemaTable]

/-- The identifier validator and its schema are in the table. -/
theorem capnZeroId_mem_schemaTable :
    (CapnZeroIdValidator.validate, capnZeroIdSchema) ∈ schemaTable := by
  simp [schemaTable]

/-- C3: for every Message Validator of the table, checks run in the fixed
order of its schema, and when all checks before position i succeed and
the check at position i fails with e, the validator's outcome is exactly
the single failure e — the failures of later fields are never observed. -/
theorem validator_first_failure_wins :
    ∀ p ∈ schemaTable, ∀ (o : Object) (i : Nat) (c : FieldCheck × String)
      (e : AlicaMessageValidationError),
      p.2[i]? = some c →
      (∀ j cj, j < i → p.2[j]? = some cj → cj.1.run o cj.2 = .ok ()) →
      c.1.run o c.2 = .error e →
      p.1 (.parsed (.object o)) = .error e := by
  intro p hp o i c e hc hok herr
  rw [schemaTable_sound p hp (.parsed (.object o))]
  exact runChecks_first_error p.2 o i c e hc hok herr

/-- C3, witness: on the empty document the engine-status validator
reports the failure of its first schema field, senderId. -/
theorem validator_first_failure_wins_witness :
    AlicaEngineInfoValidator.validate (.parsed (.object [])) =
      .error (.missingField "senderId") :=
  validator_first_failure_wins (AlicaEngineInfoValidator.validate, engineInfoSchema)
    engineInfo_mem_schemaTable [] 0 (.capnzeroId, "senderId")
    (.missingField "senderId") (by simp [engineInfoSchema])
    (fun j cj hj _ => absurd hj (Nat.not_lt_zero j)) rfl

/-- C5: for every Message Validator of the table, a buffer that is not
UTF-8, a buffer that is not well-formed JSON, and a buffer whose parsed
root is not an object are all rejected with Invalid Format — never with
Missing Field, and with no partial result. -/
theorem malformed_input_rejected :
    ∀ p ∈ schemaTable,
      p.1 .badUtf8 = .error (.invalidFormat "Message is no UTF-8 string") ∧
      p.1 .badJson = .error (.invalidFormat "Message is no JSON structure") ∧
      ∀ v : JsonValue, (∀ o : Object, v ≠ .object o) →
        p.1 (.parsed v) = .error (.invalidFormat "Root of message is no object") := by
  intro p hp
  refine ⟨?_, ?_, ?_⟩
  · rw [schemaTable_sound p hp .badUtf8]; rfl
  · rw [schemaTable_sound p hp .badJson]; rfl
  · intro v hv
    rw [schemaTable_sound p hp (.parsed v)]
    cases v with
    | object o => exact absurd rfl (hv o)
    | null => rfl
    | str s => rfl
    | num n => rfl
    | boolean b => rfl
    | array xs => rfl

/-- C5, witness: the role-switch validator rejects a non-UTF-8 buffer
and an array root with Invalid Format. -/
theorem malformed_input_rejected_witness :
    RoleSwitchValidator.validate .badUtf8 =
      .error (.invalidFormat "Message is no UTF-8 string") ∧
    RoleSwitchValidator.validate (.parsed (.array [])) =
      .error (.invalidFormat "Root of message is no object") :=
  ⟨(malformed_input_rejected (RoleSwitchValidator.validate, roleSwitchSchema)
      roleSwitch_mem_schemaTable).1,
   (malformed_input_rejected (RoleSwitchValidator.validate, roleSwitchSchema)
      roleSwitch_mem_schemaTable).2.2 (.array [])
      (fun _ h => JsonValue.noConfusion h)⟩

/-- C6: for every Message Validator of the table, the outcome on a parsed
object depends only on the fields named by its schema: any document that
agrees with a valid document on all schema fields — in particular a
document extending it with arbitrary extra unknown fields — is itself
valid. -/
theorem extra_fields_ignored :
    ∀ p ∈ schemaTable, ∀ (o o2 : Object),
      (∀ f ∈ p.2.map Prod.snd, o2.get f = o.get f) →
      p.1 (.parsed (.object o)) = .ok () →
      p.1 (.parsed (.object o2)) = .ok () := by
  intro p hp o o2 hagree hok
  rw [schemaTable_sound p hp (.parsed (.object o))] at hok
  rw [schemaTable_sound p hp (.parsed (.object o2))]
  exact (runChecks_get_congr p.2 o o2 hagree).trans hok

/-- A valid identifier document. -/
def typeValueDoc : JsonValue :=
  .object [("type", .num ⟨1, 0⟩), ("value", .str "a")]

/-- The same identifier document with an extra unknown field in front. -/
def typeValueDocExtra : JsonValue :=
  .object [("extra", .boolean true), ("type", .num ⟨1, 0⟩), ("value", .str "a")]

/-- C6, witness: the identifier document with an extra unknown field
still validates. -/
theorem extra_fields_ignored_witness :
    CapnZeroIdValidator.validate (.parsed typeValueDocExtra) = .ok () :=
  extra_fields_ignored (CapnZeroIdValidator.validate, capnZeroIdSchema)
    capnZeroId_mem_schemaTable
    [("type", .num ⟨1, 0⟩), ("value", .str "a")]
    [("extra", .boolean true), ("type", .num ⟨1, 0⟩), ("value", .str "a")]
    (by intro f hf; fin_cases hf <;> rfl) rfl

/-- C4: for both collection checkers, on any container and field name: an
absent field yields Missing Field naming that field; a present non-array
value yields Invalid Format ("is no array"); and for a present array,
evaluation is front-to-back and fail-fast — when every element before
position i conforms and the element at position i does not, the returned
failure is exactly that element's failure: for integer lists the
"contains a non integer entry" format failure, for nested-object lists
the injected validator's failure for that element, unchanged. -/
theorem collection_checkers_fail_fast :
    (∀ (o : Object) (f : String), o.get f = none →
      validate_integer_list_field o f = .error (.missingField f) ∧
      ∀ val, validate_list_field_with_complex_components o f val =
        .error (.missingField f)) ∧
    (∀ (o : Object) (f : String) (v : JsonValue),
      o.get f = some v → (∀ xs, v ≠ .array xs) →
      validate_integer_list_field o f = .error (.invalidFormat (f ++ " is no array")) ∧
      ∀ val, validate_list_field_with_complex_components o f val =
        .error (.invalidFormat (f ++ " is no array"))) ∧
    (∀ (o : Object) (f : String) (xs : List JsonValue) (i : Nat) (x : JsonValue),
      o.get f = some (.array xs) → xs[i]? = some x →
      (∀ j y, j < i → xs[j]? = some y → (JsonValue.as_i64 y).isSome) →
      x.as_i64 = none →
      validate_integer_list_field o f =
        .error (.invalidFormat (f ++ " contains a non integer entry"))) ∧
    (∀ (o : Object) (f : String) (val : MsgInput → AlicaMessageValidationResult)
      (xs : List JsonValue) (i : Nat) (x : JsonValue)
      (e : AlicaMessageValidationError),
      o.get f = some (.array xs) → xs[i]? = some x →
      (∀ j y, j < i → xs[j]? = some y → val (.parsed y) = .ok ()) →
      val (.parsed x) = .error e →
      validate_list_field_with_complex_components o f val = .error e) := by
  refine ⟨?_, ?_, ?_, ?_⟩
  · intro o f h
    constructor
    · simp [validate_integer_list_field, h]
    · intro val
      simp [validate_list_field_with_complex_components, h]
  · intro o f v h hne
    cases v with
    | array xs => exact absurd rfl (hne xs)
    | null =>
      exact ⟨by simp [validate_integer_list_field, h],
        fun val => by simp [validate_list_field_with_complex_components, h]⟩
    | str s =>
      exact ⟨by simp [validate_integer_list_field, h],
        fun val => by simp [validate_list_field_with_complex_components, h]⟩
    | num n =>
      exact ⟨by simp [validate_integer_list_field, h],
        fun val => by simp [validate_list_field_with_complex_components, h]⟩
    | boolean b =>
      exact ⟨by simp [validate_integer_list_field, h],
        fun val => by simp [validate_list_field_with_complex_components, h]⟩
    | object entries =>
      exact ⟨by simp [validate_integer_list_field, h],
        fun val => by simp [validate_list_field_with_complex_components, h]⟩
  · intro o f xs i x hget hx hok hbad
    simp only [validate_integer_list_field, hget]
    refine collectResults_map_first_error _ xs i x _ hx ?_ ?_
    · intro j y hj hy
      obtain ⟨n, hn⟩ := Option.isSome_iff_exists.mp (hok j y hj hy)
      simp [hn]
    · simp [hbad]
  · intro o f val xs i x e hget hx hok herr
    simp only [validate_list_field_with_complex_components, hget]
    exact collectResults_map_first_error _ xs i x e hx hok herr

/-- C4, witness: on the array [1, "x", "y"] the integer list checker
reports the failure of the first non-conforming element. -/
theorem collection_checkers_fail_fast_witness :
    validate_integer_list_field [("ids", .array [.num ⟨1, 0⟩, .str "x", .str "y"])]
      "ids" = .error (.invalidFormat ("ids" ++ " contains a non integer entry")) := by
  refine collection_checkers_fail_fast.2.2.1
    [("ids", .array [.num ⟨1, 0⟩, .str "x", .str "y"])] "ids"
    [.num ⟨1, 0⟩, .str "x", .str "y"] 1 (.str "x") rfl (by simp) ?_ rfl
  intro j y hj hy
  have hj0 : j = 0 := Nat.lt_one_iff.mp hj
  subst hj0
  simp only [List.getElem?_cons_zero, Option.some.injEq] at hy
  subst hy
  rfl

/-- C9: the integer field checker rejects a present field whose numeric
value is not exactly representable as a signed 64-bit integer with
Invalid Format instead of truncating it — and a decimal number with a
fractional part (negative exponent, mantissa not divisible by the
corresponding power of ten) is never representable. -/
theorem integer_checker_rejects_non_i64 :
    (∀ (o : Object) (f : String) (v : JsonValue),
      o.get f = some v → v.as_i64 = none →
      validate_integer_field o f = .error (.invalidFormat (f ++ " is no integer"))) ∧
    (∀ n : JNumber, n.exponent < 0 →
      ¬ ((10 : Int) ^ (-n.exponent).toNat ∣ n.mantissa) →
      JNumber.asI64 n = none) := by
  constructor
  · intro o f v hget hnone
    simp [validate_integer_field, okOr, hget, hnone, bind_ok_eq, bind_error_eq]
  · intro n hneg hndvd
    simp [JNumber.asI64, not_le.mpr hneg, hndvd]

/-- C9, witness: the number 1.5 (mantissa 15, exponent -1) is rejected by
the integer field checker with Invalid Format, not truncated to 1. -/
theorem integer_checker_rejects_non_i64_witness :
    validate_integer_field [("x", .num ⟨15, -1⟩)] "x" =
      .error (.invalidFormat ("x" ++ " is no integer")) :=
  integer_checker_rejects_non_i64.1 [("x", .num ⟨15, -1⟩)] "x"
    (.num ⟨15, -1⟩) rfl rfl

/-- C10: for both collection checkers, a field that is present and is an
empty array satisfies the check, and an entry-point/robot document whose
robots list is empty validates successfully overall. -/
theorem empty_list_field_valid :
    (∀ (o : Object) (f : String), o.get f = some (.array []) →
      validate_integer_list_field o f = .ok () ∧
      ∀ val, validate_list_field_with_complex_components o f val = .ok ()) ∧
    EntryPointRobotValidator.validate
      (.parsed (.object [("entrypoint", .num ⟨0, 0⟩), ("robots", .array [])])) =
      .ok () := by
  constructor
  · intro o f h
    constructor
    · simp [validate_integer_list_field, h, collectResults]
    · intro val
      simp [validate_list_field_with_complex_components, h, collectResults]
  · rfl

/-- C10, witness: a container whose only list field is an empty array
passes the integer list check. -/
theorem empty_list_field_valid_witness :
    validate_integer_list_field [("xs", .array [])] "xs" = .ok () :=
  (empty_list_field_valid.1 [("xs", .array [])] "xs" rfl).1

end AlicaSawtooth
